import Mathlib

/-!
Verification of the grimswap-relayer service against its specification.

The TypeScript sources are shallowly embedded:
* JS `BigInt(string)` conversion, the address / tx-hash regexes, and
  `String.prototype.includes` are modelled executably on `List Char`.
* The blockchain client (viem) is modelled as an environment record `Env`
  giving the observable outcome of each RPC interaction; every chain
  interaction performed by the service is recorded in an `Action` trace.
* JS `BigInt` arithmetic is exact integer arithmetic with division
  truncating toward zero (`Int.tdiv`).
-/

namespace GrimRelay

/-! ## JS string and number primitives -/

/-- Character class of the validator's address regex `[a-fA-F0-9]`. -/
def isHexChar (c : Char) : Bool :=
  c.isDigit || ('a' ≤ c && c ≤ 'f') || ('A' ≤ c && c ≤ 'F')

/-- `isValidAddress` from `src/middleware/validator.ts`: regex `^0x[a-fA-F0-9]{40}$`.
The argument is `Option String` because a missing / non-string field coerces to a
non-matching string in JS (`regex.test(undefined)` is `false`). -/
def isValidAddress (s : Option String) : Bool :=
  match s with
  | none => false
  | some s =>
    match s.data with
    | '0' :: 'x' :: rest => rest.length == 40 && rest.all isHexChar
    | _ => false

/-- The status route's tx-hash regex `^0x[a-fA-F0-9]{64}$`. -/
def isValidTxHash (s : String) : Bool :=
  match s.data with
  | '0' :: 'x' :: rest => rest.length == 64 && rest.all isHexChar
  | _ => false

/-- Numeric value of a hex digit character, `none` for any other character. -/
def hexVal (c : Char) : Option Nat :=
  if c.isDigit then some (c.toNat - 48)
  else if 'a' ≤ c && c ≤ 'f' then some (c.toNat - 87)
  else if 'A' ≤ c && c ≤ 'F' then some (c.toNat - 55)
  else none

/-- Digit value in a given radix (used for the JS `BigInt` grammar). -/
def digitVal (radix : Nat) (c : Char) : Option Nat :=
  match hexVal c with
  | some v => if v < radix then some v else none
  | none => none

/-- Accumulating digit parser for `bigIntParse`. -/
def parseDigitsAux (radix : Nat) : List Char → Nat → Option Nat
  | [], acc => some acc
  | c :: cs, acc =>
    match digitVal radix c with
    | some v => parseDigitsAux radix cs (acc * radix + v)
    | none => none

/-- Nonempty all-digit parser for `bigIntParse`. -/
def parseDigits (radix : Nat) (cs : List Char) : Option Nat :=
  match cs with
  | [] => none
  | _ => parseDigitsAux radix cs 0

/-- JS `BigInt(string)` (the `StringToBigInt` coercion): whitespace is trimmed,
the empty string is `0`, decimal strings may carry a sign, and `0x`/`0o`/`0b`
prefixed strings are unsigned.  `none` models the thrown `SyntaxError`. -/
def bigIntParse (s : String) : Option Int :=
  let cs := ((s.data.dropWhile Char.isWhitespace).reverse.dropWhile Char.isWhitespace).reverse
  match cs with
  | [] => some 0
  | '-' :: rest => (parseDigits 10 rest).map (fun n => -(n : Int))
  | '+' :: rest => (parseDigits 10 rest).map (fun n => (n : Int))
  | '0' :: 'x' :: rest => (parseDigits 16 rest).map Int.ofNat
  | '0' :: 'X' :: rest => (parseDigits 16 rest).map Int.ofNat
  | '0' :: 'o' :: rest => (parseDigits 8 rest).map Int.ofNat
  | '0' :: 'O' :: rest => (parseDigits 8 rest).map Int.ofNat
  | '0' :: 'b' :: rest => (parseDigits 2 rest).map Int.ofNat
  | '0' :: 'B' :: rest => (parseDigits 2 rest).map Int.ofNat
  | _ => (parseDigits 10 cs).map Int.ofNat

/-- `String.prototype.slice(0, n)` on the relevant inputs. -/
def strTake (s : String) (n : Nat) : String :=
  ⟨s.data.take n⟩

/-- `String.prototype.padStart(n, "0")`. -/
def padStart (s : String) (n : Nat) : String :=
  ⟨List.replicate (n - s.data.length) '0' ++ s.data⟩

/-- JS `BigInt.prototype.toString(16)`: lowercase hex, `-` prefix when negative. -/
def bigIntHex (i : Int) : String :=
  if i < 0 then "-" ++ (Nat.toDigits 16 i.natAbs).asString
  else (Nat.toDigits 16 i.natAbs).asString

/-- The relayer's address formatting of a recipient signal:
`` `0x${recipientSignal.toString(16).padStart(40, '0')}` ``. -/
def toAddressHex (i : Int) : String :=
  "0x" ++ padStart (bigIntHex i) 40

/-! ### `String.prototype.includes`

Implemented as an executable scan over `List Char`. -/

/-- `matchesAt pat l` is true when `pat` occurs at the head of `l`. -/
def matchesAt : List Char → List Char → Bool
  | [], _ => true
  | _ :: _, [] => false
  | a :: as, b :: bs => a == b && matchesAt as bs

/-- `containsPat pat l` is true when `pat` occurs contiguously anywhere in `l`. -/
def containsPat (pat : List Char) : List Char → Bool
  | [] => matchesAt pat []
  | c :: cs => matchesAt pat (c :: cs) || containsPat pat cs

/-- JS `msg.includes(pat)`. -/
def strIncludes (msg pat : String) : Bool :=
  containsPat pat.data msg.data

/-! ## Request wire shapes

The request body as the validator sees it.  `Option` encodes a JS field that
is missing or of the wrong runtime type (`Array.isArray` / `typeof` failing);
list entries of `publicSignals` are `Option String` (`none` = non-string entry). -/

structure RawProof where
  a : Option (List String)
  b : Option (List (List String))
  c : Option (List String)
deriving Repr, DecidableEq

structure RawPoolKey where
  currency0 : Option String
  currency1 : Option String
  fee : Option Int
  tickSpacing : Option Int
  hooks : Option String
deriving Repr, DecidableEq

structure RawSwapParams where
  poolKey : Option RawPoolKey
  zeroForOne : Option Bool
  amountSpecified : Option String
  sqrtPriceLimitX96 : Option String
deriving Repr, DecidableEq

structure RawBody where
  proof : Option RawProof
  publicSignals : Option (List (Option String))
  swapParams : Option RawSwapParams
deriving Repr, DecidableEq

/-! ## The request validator (`src/middleware/validator.ts`) -/

/-- `Array.isArray(x) && x.length === 2` for an optional array field. -/
def isArrLen2 {α : Type} (l : Option (List α)) : Bool :=
  match l with
  | none => false
  | some l => l.length == 2

/-- Error message for a non-string `publicSignals` entry. -/
def sigMsgNotString (i : Nat) : String :=
  "Invalid publicSignals[" ++ Nat.repr i ++ "]: expected string"

/-- Error message for a non-numeric `publicSignals` entry. -/
def sigMsgNotNumber (i : Nat) : String :=
  "Invalid publicSignals[" ++ Nat.repr i ++ "]: not a valid number"

/-- The validator's per-entry loop over `publicSignals`. -/
def checkSignals : List (Option String) → Nat → Option String
  | [], _ => none
  | none :: _, i => some (sigMsgNotString i)
  | some s :: rest, i =>
    match bigIntParse s with
    | none => some (sigMsgNotNumber i)
    | some _ => checkSignals rest (i + 1)

/-- `validateRelayRequest`: returns `some message` when the middleware responds
with status 400 and that message, `none` when it calls `next()`.  Checks are in
source order and the first failure wins. -/
def validateRelayRequest (body : RawBody) : Option String :=
  match body.proof with
  | none => some "Missing or invalid proof"
  | some proof =>
    if !isArrLen2 proof.a then some "Invalid proof.a"
    else if !isArrLen2 proof.b then some "Invalid proof.b"
    else if !isArrLen2 proof.c then some "Invalid proof.c"
    else
      match body.publicSignals with
      | none => some "Invalid publicSignals: expected array with at least 6 elements"
      | some signals =>
        if signals.length < 6 then
          some "Invalid publicSignals: expected array with at least 6 elements"
        else
          match checkSignals signals 0 with
          | some msg => some msg
          | none =>
            match body.swapParams with
            | none => some "Missing or invalid swapParams"
            | some sp =>
              match sp.poolKey with
              | none => some "Missing or invalid swapParams.poolKey"
              | some pk =>
                if !isValidAddress pk.currency0 then some "Invalid currency0 address"
                else if !isValidAddress pk.currency1 then some "Invalid currency1 address"
                else if !isValidAddress pk.hooks then some "Invalid hooks address"
                else
                  match pk.fee with
                  | none => some "Invalid fee"
                  | some fee =>
                    if fee < 0 then some "Invalid fee"
                    else
                      match pk.tickSpacing with
                      | none => some "Invalid tickSpacing"
                      | some _ =>
                        match sp.zeroForOne with
                        | none => some "Invalid zeroForOne"
                        | some _ =>
                          match sp.amountSpecified with
                          | none => some "Missing amountSpecified"
                          | some amt =>
                            if amt = "" then some "Missing amountSpecified"
                            else
                              match sp.sqrtPriceLimitX96 with
                              | none => some "Missing sqrtPriceLimitX96"
                              | some sqrtp =>
                                if sqrtp = "" then some "Missing sqrtPriceLimitX96"
                                else none

/-! ## Errors thrown inside the relay service

Each constructor corresponds to one `throw` site in `relayService.ts` (or to an
exception raised by a JS/viem primitive the service calls), and `message` gives
the thrown error's message string, which the relay route inspects with
`message.includes(...)`. -/

inductive RelayError where
  /-- line 405: local snarkjs verification returned false (or errored). -/
  | invalidProofLocal
  /-- line 434: unknown Merkle root and the relayer could not register it. -/
  | invalidMerkleRootPreflight (root : Int)
  /-- line 442: nullifier reported spent during pre-flight. -/
  | nullifierUsedPreflight
  /-- line 457: recipient signal is zero. -/
  | invalidRecipientPreflight
  /-- line 462: fee-bps signal exceeds 1000. -/
  | invalidRelayerFeePreflight (fee : Int)
  /-- line 546: simulated revert contains `InvalidProof`. -/
  | invalidProofSim
  /-- line 549: simulated revert contains `InvalidMerkleRoot`. -/
  | invalidMerkleRootSim
  /-- line 552: simulated revert contains `NullifierAlreadyUsed`. -/
  | nullifierUsedSim
  /-- line 555: simulated revert contains `InvalidRecipient`. -/
  | invalidRecipientSim
  /-- line 558: simulated revert contains `InvalidRelayerFee`. -/
  | invalidRelayerFeeSim
  /-- line 565: unrecognized estimation failure, re-thrown with context. -/
  | contractReverted (shortMessage : String)
  /-- JS `TypeError` from `BigInt(undefined)` (out-of-range index access);
  a property access on `undefined` is folded into the same constructor, as
  both are keyword-free `TypeError`s. -/
  | typeErrorUndefined
  /-- JS `SyntaxError` from `BigInt` on a non-numeric string. -/
  | syntaxError (s : String)
  /-- viem `AbiEncodingArrayLengthMismatchError` from `encodeAbiParameters`
  when the signal array does not have exactly 8 entries. -/
  | abiLengthMismatch (expected given : Nat)
  /-- a chain-client call (`sendTransaction`, or `estimateGas` on the
  uncaught estimate path) threw; the raw viem message propagates. -/
  | clientError (msg : String)
deriving Repr, DecidableEq

/-- The `message` property of each thrown error, as the route sees it. -/
def RelayError.message : RelayError → String
  | .invalidProofLocal =>
      "InvalidProof: Proof verification failed locally (snarkjs). The proof is invalid."
  | .invalidMerkleRootPreflight root =>
      "InvalidMerkleRoot: Root " ++ strTake (Int.repr root) 20 ++
      "... is not registered in GrimPool. Relayer cannot add roots (not owner)."
  | .nullifierUsedPreflight =>
      "NullifierAlreadyUsed: This deposit has already been withdrawn"
  | .invalidRecipientPreflight =>
      "InvalidRecipient: Recipient address is zero"
  | .invalidRelayerFeePreflight fee =>
      "InvalidRelayerFee: Fee " ++ Int.repr fee ++ " exceeds max 1000 bps"
  | .invalidProofSim =>
      "InvalidProof: ZK proof verification failed in Groth16Verifier"
  | .invalidMerkleRootSim =>
      "InvalidMerkleRoot: Merkle root not recognized by GrimPool"
  | .nullifierUsedSim =>
      "NullifierAlreadyUsed: This deposit has already been spent"
  | .invalidRecipientSim =>
      "InvalidRecipient: Recipient address is invalid"
  | .invalidRelayerFeeSim =>
      "InvalidRelayerFee: Relayer fee exceeds maximum"
  | .contractReverted short =>
      "Contract reverted: " ++ short ++ ". Check proof validity and contract state."
  | .typeErrorUndefined =>
      "Cannot convert undefined to a BigInt"
  | .syntaxError s =>
      "Cannot convert " ++ s ++ " to a BigInt"
  | .abiLengthMismatch expected given =>
      "ABI encoding array length mismatch for type `uint256[" ++ Nat.repr expected ++
      "]`. Expected length: " ++ Nat.repr expected ++ ". Given length: " ++
      Nat.repr given ++ "."
  | .clientError msg => msg

/-! ## Chain-client environment and interaction trace -/

/-- A mined transaction receipt (the fields the service reads). -/
structure Receipt where
  blockNumber : Nat
  gasUsed : Nat
deriving Repr, DecidableEq

/-- Outcome of `addKnownRoot` (owner-only root registration). -/
inductive AddRootOutcome where
  /-- `writeContract` and the receipt wait both succeed. -/
  | success
  /-- the transaction was sent but waiting for its receipt failed. -/
  | failSent
  /-- `writeContract` itself threw; nothing was broadcast. -/
  | failNotSent
deriving Repr, DecidableEq

/-- Outcome of the stealth-funding `sendTransaction`. -/
inductive FundOutcome where
  | ok (hash : String)
  | waitFails (hash : String)
  | sendThrows
deriving Repr, DecidableEq

/-- Observable outcomes of every chain-client interaction the service can make.
Functions give the value the `await` evaluates to; the read helpers
(`isRootKnown`, `isNullifierUsed`, `isOwner`) catch RPC errors and return
`false`, so a `Bool` outcome models them faithfully. -/
structure Env where
  /-- `none`: snarkjs / the verification key failed to load (check skipped);
  `some b`: `groth16.verify` outcome, with a thrown error folded to `false`
  exactly as the surrounding `catch` does. -/
  localVerify : Option Bool
  isKnownRoot : Int → Bool
  isOwner : Bool
  addRoot : AddRootOutcome
  isNullifierUsed : Int → Bool
  /-- `some g`: `estimateGas` returns `g`; `none`: it throws. -/
  estimateGas : Option Nat
  /-- when estimation throws: `some m` = the follow-up `call` throws with
  message `m`; `none` = the `call` succeeds. -/
  callRevertMsg : Option String
  /-- `shortMessage` of the original estimation error. -/
  estimateErrMsg : String
  /-- `some m`: `sendTransaction` for the swap throws with message `m`. -/
  sendError : Option String
  txHash : String
  receipt : Receipt
  gasPrice : Nat
  stealthEnabled : Bool
  fundingWei : Nat
  /-- `getBalance` outcome per address; `none` = the RPC call throws. -/
  balanceOf : String → Option Nat
  fundOutcome : FundOutcome

/-- One chain-client interaction, in order of occurrence. -/
inductive Action where
  | readRoot (root : Int)
  | readOwner
  | readNullifier (nh : Int)
  | txAddRoot (root : Int)
  | estimateCall
  | callSim
  | txSwap (gas : Nat) (value : Int)
  | readGasPrice
  | readBalance (addr : String)
  | txFund (addr : String) (amount : Nat)
deriving Repr, DecidableEq

/-- Write transactions (signed and broadcast by the relayer's account). -/
def Action.isWrite : Action → Bool
  | .txAddRoot _ => true
  | .txSwap _ _ => true
  | .txFund _ _ => true
  | _ => false

/-- The root-registration write. -/
def Action.isAddRootTx : Action → Bool
  | .txAddRoot _ => true
  | _ => false

/-- The swap write. -/
def Action.isSwapTx : Action → Bool
  | .txSwap _ _ => true
  | _ => false

/-- Gas estimation / simulation / transaction submission: everything the
pre-flight checks must precede ("before any transaction is encoded,
estimated, or sent"). -/
def Action.isEstimateOrTx : Action → Bool
  | .estimateCall => true
  | .callSim => true
  | .txSwap _ _ => true
  | .txAddRoot _ => true
  | .txFund _ _ => true
  | _ => false

/-- Actions of the phase after the recipient / fee sanity checks: gas
estimation, call simulation, the swap submission, and the funding transfer.
The owner root-registration write belongs to the earlier Merkle-root step and
is deliberately not counted here. -/
def Action.isPostCheckTx : Action → Bool
  | .estimateCall => true
  | .callSim => true
  | .txSwap _ _ => true
  | .txFund _ _ => true
  | _ => false

/-! ## The relay service (`src/services/relayService.ts`) -/

/-- JS `BigInt(x)` on a possibly-undefined string: `undefined` raises a
`TypeError`, a non-numeric string raises a `SyntaxError`. -/
def jsBig (s : Option String) : Except RelayError Int :=
  match s with
  | none => .error .typeErrorUndefined
  | some s =>
    match bigIntParse s with
    | none => .error (.syntaxError s)
    | some v => .ok v

/-- `BigInt(publicSignals[i])` on the service's signal array. -/
def sigAt (signals : List String) (i : Nat) : Except RelayError Int :=
  jsBig (signals.get? i)

/-- `proof.a[i]` style access on an optional array field. -/
def idx1 (l : Option (List String)) (i : Nat) : Option String :=
  l.bind (fun l => l.get? i)

/-- `proof.b[i][j]` style access. -/
def idx2 (l : Option (List (List String))) (i j : Nat) : Option String :=
  (l.bind (fun l => l.get? i)).bind (fun r => r.get? j)

/-- `verifyProofLocally`: `true` when snarkjs or the verification key is
unavailable (check skipped, "will rely on on-chain verification"), otherwise
the `groth16.verify` outcome with errors folded to `false` by the `catch`. -/
def verifyProofLocally (env : Env) : Bool :=
  match env.localVerify with
  | none => true
  | some b => b

/-- `addKnownRoot`: sends the owner-only registration transaction and waits
for one confirmation; any error is caught and reported as `false`. -/
def addKnownRoot (env : Env) (root : Int) : Bool × List Action :=
  match env.addRoot with
  | .success => (true, [.txAddRoot root])
  | .failSent => (false, [.txAddRoot root])
  | .failNotSent => (false, [])

/-- `fundStealthAddress`: best-effort ETH top-up of the recipient.  Returns
the funding tx hash or `null`; every error path is caught and yields `null`. -/
def fundStealthAddress (env : Env) (addr : String) : Option String × List Action :=
  if !env.stealthEnabled then (none, [])
  else
    match env.balanceOf addr with
    | none => (none, [.readBalance addr])
    | some bal =>
      if env.fundingWei ≤ bal then (none, [.readBalance addr])
      else
        match env.fundOutcome with
        | .ok h => (some h, [.readBalance addr, .txFund addr env.fundingWei])
        | .waitFails _ => (none, [.readBalance addr, .txFund addr env.fundingWei])
        | .sendThrows => (none, [.readBalance addr])

/-- The ABI-encoded hook data: proof points (with the `pB` column swap the
source applies) plus the `uint256[8]` signal array. -/
structure HookData where
  pA : Int × Int
  pB : (Int × Int) × (Int × Int)
  pC : Int × Int
  signals : List Int
deriving Repr, DecidableEq

/-- `encodeHookData`: converts every proof coordinate and signal with
`BigInt` (in source evaluation order: `a[0]`, `a[1]`, `b[0][1]`, `b[0][0]`,
`b[1][1]`, `b[1][0]`, `c[0]`, `c[1]`, then the signal map), then ABI-encodes
against `uint256[2], uint256[2][2], uint256[2], uint256[8]` — viem rejects a
signal array whose length is not exactly 8. -/
def encodeHookData (p : RawProof) (signals : List String) : Except RelayError HookData :=
  match jsBig (idx1 p.a 0) with
  | .error e => .error e
  | .ok a0 =>
  match jsBig (idx1 p.a 1) with
  | .error e => .error e
  | .ok a1 =>
  match jsBig (idx2 p.b 0 1) with
  | .error e => .error e
  | .ok b01 =>
  match jsBig (idx2 p.b 0 0) with
  | .error e => .error e
  | .ok b00 =>
  match jsBig (idx2 p.b 1 1) with
  | .error e => .error e
  | .ok b11 =>
  match jsBig (idx2 p.b 1 0) with
  | .error e => .error e
  | .ok b10 =>
  match jsBig (idx1 p.c 0) with
  | .error e => .error e
  | .ok c0 =>
  match jsBig (idx1 p.c 1) with
  | .error e => .error e
  | .ok c1 =>
  match signals.mapM (fun s => jsBig (some s)) with
  | .error e => .error e
  | .ok sv =>
    if sv.length = 8 then
      .ok { pA := (a0, a1), pB := ((b01, b00), (b11, b10)), pC := (c0, c1), signals := sv }
    else
      .error (.abiLengthMismatch 8 sv.length)

/-- The native-ETH value attached to the swap call:
`isNativeEthSwap && zeroForOne ? |amountSpecified| : 0`. -/
def ethValueCalc (sp : RawSwapParams) (amountSpecified : Int) : Int :=
  let currency0 := ((sp.poolKey.getD ⟨none, none, none, none, none⟩).currency0).getD ""
  let zeroForOne := sp.zeroForOne.getD false
  let isNativeEthSwap := currency0 == "0x0000000000000000000000000000000000000000"
  let swapAmountAbs := if amountSpecified < 0 then -amountSpecified else amountSpecified
  if isNativeEthSwap && zeroForOne then swapAmountAbs else 0

/-- The advertised relayer fee: `(swapAmount * relayerFeeBps) / 10000` in JS
`BigInt` arithmetic, i.e. exact division truncating toward zero. -/
def relayerFeeCalc (swapAmount relayerFeeBps : Int) : Int :=
  Int.tdiv (swapAmount * relayerFeeBps) 10000

/-- The relay result returned on success (`RelayResult` in the source). -/
structure RelayResult where
  txHash : String
  blockNumber : Nat
  gasUsed : Nat
  relayerFee : String
  fundingTxHash : Option String
  recipientAddress : String
deriving Repr, DecidableEq

/-- The estimate result (`EstimateResult` in the source). -/
structure EstimateResult where
  gas : Nat
  fee : Nat
  relayerFee : String
  totalCost : String
deriving Repr, DecidableEq

/-- `submitPrivateSwap` from the point after the root and nullifier pre-flight
checks: parse and sanity-check the recipient / relayer / fee signals, encode
the hook data and swap call, estimate gas (with revert-reason mapping on
failure), submit with a 20% gas buffer, await one confirmation, compute the
advertised fee, and best-effort fund the stealth recipient. -/
def submitStage2 (env : Env) (p : RawProof) (signals : List String) (sp : RawSwapParams) :
    Except RelayError RelayResult × List Action :=
  match sigAt signals 4 with
  | .error e => (.error e, [])
  | .ok recipientSignal =>
  match sigAt signals 5 with
  | .error e => (.error e, [])
  | .ok _relayerSignal =>
  match sigAt signals 6 with
  | .error e => (.error e, [])
  | .ok relayerFeeSignal =>
  if recipientSignal = 0 then (.error .invalidRecipientPreflight, [])
  else if 1000 < relayerFeeSignal then
    (.error (.invalidRelayerFeePreflight relayerFeeSignal), [])
  else
  match encodeHookData p signals with
  | .error e => (.error e, [])
  | .ok _hookData =>
  match jsBig sp.amountSpecified with
  | .error e => (.error e, [])
  | .ok amountSpecified =>
  match jsBig sp.sqrtPriceLimitX96 with
  | .error e => (.error e, [])
  | .ok _sqrtPrice =>
  let ethValue := ethValueCalc sp amountSpecified
  match env.estimateGas with
  | none =>
    -- estimation threw: re-simulate with `call` and map known revert reasons
    match env.callRevertMsg with
    | some m =>
      if strIncludes m "InvalidProof" then
        (.error .invalidProofSim, [.estimateCall, .callSim])
      else if strIncludes m "InvalidMerkleRoot" then
        (.error .invalidMerkleRootSim, [.estimateCall, .callSim])
      else if strIncludes m "NullifierAlreadyUsed" then
        (.error .nullifierUsedSim, [.estimateCall, .callSim])
      else if strIncludes m "InvalidRecipient" then
        (.error .invalidRecipientSim, [.estimateCall, .callSim])
      else if strIncludes m "InvalidRelayerFee" then
        (.error .invalidRelayerFeeSim, [.estimateCall, .callSim])
      else (.error (.contractReverted env.estimateErrMsg), [.estimateCall, .callSim])
    | none => (.error (.contractReverted env.estimateErrMsg), [.estimateCall, .callSim])
  | some gasEstimate =>
  let gasLimit := gasEstimate * 120 / 100
  match env.sendError with
  | some m => (.error (.clientError m), [.estimateCall])
  | none =>
  match sigAt signals 6 with
  | .error e => (.error e, [.estimateCall, .txSwap gasLimit ethValue])
  | .ok relayerFeeBps =>
  match jsBig sp.amountSpecified with
  | .error e => (.error e, [.estimateCall, .txSwap gasLimit ethValue])
  | .ok swapAmount =>
  let relayerFee := relayerFeeCalc swapAmount relayerFeeBps
  let recipientAddress := toAddressHex recipientSignal
  let fund := fundStealthAddress env recipientAddress
  (.ok { txHash := env.txHash, blockNumber := env.receipt.blockNumber,
         gasUsed := env.receipt.gasUsed, relayerFee := Int.repr relayerFee,
         fundingTxHash := fund.1, recipientAddress := recipientAddress },
   [.estimateCall, .txSwap gasLimit ethValue] ++ fund.2)

/-- The double-spend pre-flight check followed by the rest of the submission. -/
def submitAfterRoot (env : Env) (p : RawProof) (signals : List String)
    (sp : RawSwapParams) (nullifierHash : Int) :
    Except RelayError RelayResult × List Action :=
  if env.isNullifierUsed nullifierHash then
    (.error .nullifierUsedPreflight, [.readNullifier nullifierHash])
  else
    let r := submitStage2 env p signals sp
    (r.1, .readNullifier nullifierHash :: r.2)

/-- `submitPrivateSwap`: local proof verification, Merkle-root freshness check
(with the owner-only registration fallback), then `submitAfterRoot`. -/
def submitPrivateSwap (env : Env) (p : RawProof) (signals : List String)
    (sp : RawSwapParams) : Except RelayError RelayResult × List Action :=
  if verifyProofLocally env = false then (.error .invalidProofLocal, [])
  else
  match sigAt signals 2 with
  | .error e => (.error e, [])
  | .ok merkleRoot =>
  match sigAt signals 3 with
  | .error e => (.error e, [])
  | .ok nullifierHash =>
  if env.isKnownRoot merkleRoot then
    let r := submitAfterRoot env p signals sp nullifierHash
    (r.1, .readRoot merkleRoot :: r.2)
  else if env.isOwner then
    match addKnownRoot env merkleRoot with
    | (true, addActs) =>
      let r := submitAfterRoot env p signals sp nullifierHash
      (r.1, [.readRoot merkleRoot, .readOwner] ++ addActs ++ r.2)
    | (false, addActs) =>
      (.error (.invalidMerkleRootPreflight merkleRoot),
       [.readRoot merkleRoot, .readOwner] ++ addActs)
  else
    (.error (.invalidMerkleRootPreflight merkleRoot), [.readRoot merkleRoot, .readOwner])

/-- `estimateRelay`: the read-only mirror of the submission path — encode,
estimate gas (errors propagate uncaught), read the gas price, and compute the
same advertised fee. -/
def estimateRelay (env : Env) (p : RawProof) (signals : List String)
    (sp : RawSwapParams) : Except RelayError EstimateResult × List Action :=
  match encodeHookData p signals with
  | .error e => (.error e, [])
  | .ok _hookData =>
  match jsBig sp.amountSpecified with
  | .error e => (.error e, [])
  | .ok amountSpecified =>
  match jsBig sp.sqrtPriceLimitX96 with
  | .error e => (.error e, [])
  | .ok _sqrtPrice =>
  let _ethValue := ethValueCalc sp amountSpecified
  match env.estimateGas with
  | none => (.error (.clientError env.estimateErrMsg), [.estimateCall])
  | some gasEstimate =>
  let gasCost := gasEstimate * env.gasPrice
  match sigAt signals 6 with
  | .error e => (.error e, [.estimateCall, .readGasPrice])
  | .ok relayerFeeBps =>
  match jsBig sp.amountSpecified with
  | .error e => (.error e, [.estimateCall, .readGasPrice])
  | .ok swapAmount =>
  let relayerFee := relayerFeeCalc swapAmount relayerFeeBps
  (.ok { gas := gasEstimate, fee := gasCost, relayerFee := Int.repr relayerFee,
         totalCost := Int.repr ((gasCost : Int) + relayerFee) },
   [.estimateCall, .readGasPrice])

/-! ## HTTP routes -/

/-- A JSON HTTP response, reduced to the fields the claims are about:
status, the error `code` field (absent on success, on validator rejections,
and on the estimate route's 500), and the validator's field-level `error`
message when present. -/
structure HttpResp where
  status : Nat
  code : Option String
  errMsg : Option String
deriving Repr, DecidableEq

/-- The relay route's `catch` block: map a thrown error's message to a
status and `code` by substring matching, in source order. -/
def mapRelayError (msg : String) : Nat × String :=
  if strIncludes msg "InvalidProof" then (400, "INVALID_PROOF")
  else if strIncludes msg "NullifierAlreadyUsed" then (400, "NULLIFIER_USED")
  else if strIncludes msg "InvalidMerkleRoot" then (400, "INVALID_ROOT")
  else if strIncludes msg "insufficient funds" then (503, "RELAYER_UNDERFUNDED")
  else (500, "RELAY_FAILED")

/-- `POST /relay`: the validator middleware runs first; only when it calls
`next()` does the route body run `submitPrivateSwap`.  (After validation the
optional fields are present, so the `getD` defaults are never observable.) -/
def relayEndpoint (env : Env) (body : RawBody) : HttpResp × List Action :=
  match validateRelayRequest body with
  | some msg => ({ status := 400, code := none, errMsg := some msg }, [])
  | none =>
    let proof := body.proof.getD ⟨none, none, none⟩
    let signals := (body.publicSignals.getD []).map (fun o => o.getD "")
    let sp := body.swapParams.getD ⟨none, none, none, none⟩
    match submitPrivateSwap env proof signals sp with
    | (.ok _r, acts) => ({ status := 200, code := none, errMsg := none }, acts)
    | (.error e, acts) =>
      let mapped := mapRelayError e.message
      ({ status := mapped.1, code := some mapped.2, errMsg := none }, acts)

/-- `POST /relay/estimate`: validator first, then `estimateRelay`; any error
is a plain 500 with no `code` field. -/
def estimateEndpoint (env : Env) (body : RawBody) : HttpResp × List Action :=
  match validateRelayRequest body with
  | some msg => ({ status := 400, code := none, errMsg := some msg }, [])
  | none =>
    let proof := body.proof.getD ⟨none, none, none⟩
    let signals := (body.publicSignals.getD []).map (fun o => o.getD "")
    let sp := body.swapParams.getD ⟨none, none, none, none⟩
    match estimateRelay env proof signals sp with
    | (.ok _r, acts) => ({ status := 200, code := none, errMsg := none }, acts)
    | (.error _e, acts) => ({ status := 500, code := none, errMsg := none }, acts)

/-! ## The status route (`routes/status.ts`) -/

/-- The pending transaction, reduced to the field the route reports. -/
structure PendingTx where
  nonce : Nat
deriving Repr, DecidableEq

/-- Outcome of a viem lookup call.  viem does not return `null` for a missing
object: `getTransactionReceipt` throws `TransactionReceiptNotFoundError` and
`getTransaction` throws `TransactionNotFoundError` when the hash is unknown
(or the receipt does not exist yet), so absence surfaces as an exception. -/
inductive LookupOutcome (α : Type) where
  | found (a : α)
  | absent
  | errored (msg : String)
deriving Repr, DecidableEq

/-- Chain-client outcomes for the status route.  `pendingTx` is listed for
completeness but is never consulted: because an absent receipt makes
`getTransactionReceipt` throw, the route's `else` branch (pending lookup,
404) is dead code and `getTransaction` is never called. -/
structure StatusEnv where
  receipt : LookupOutcome Receipt
  pendingTx : LookupOutcome PendingTx

/-- Chain-client calls the status route can make. -/
inductive StatusAction where
  | getReceipt
  | getTx
deriving Repr, DecidableEq

/-- `GET /status/:txHash`: reject malformed hashes before any client call;
then `await getTransactionReceipt`.  When the receipt is found the route
reports it; when it is absent (or the RPC fails) the `await` throws, control
jumps over the `if (receipt) ... else` entirely, and the `catch` answers 500
"Failed to check status" — the pending / 404 branches are unreachable. -/
def statusEndpoint (env : StatusEnv) (txHash : String) : HttpResp × List StatusAction :=
  if !isValidTxHash txHash then
    ({ status := 400, code := none, errMsg := some "Invalid transaction hash" }, [])
  else
    match env.receipt with
    | .found _r => ({ status := 200, code := none, errMsg := none }, [.getReceipt])
    | .absent =>
      ({ status := 500, code := none, errMsg := some "Failed to check status" },
       [.getReceipt])
    | .errored _m =>
      ({ status := 500, code := none, errMsg := some "Failed to check status" },
       [.getReceipt])

/-! ## Specification-side definitions

Used only to compare the code's behaviour against the spec's wording. -/

/-- The fee formula as the spec words it: `floor(amountSpecified * feeBps / 10000)`
with mathematical (floor) division. -/
def specRelayerFeeFloor (amountSpecified feeBps : Int) : Int :=
  Int.fdiv (amountSpecified * feeBps) 10000

/-! ## Concrete fixtures for witnesses and counterexamples -/

/-- A well-formed nonzero address string. -/
def fixAddr : String := "0x1111111111111111111111111111111111111111"

/-- The zero address (native-ETH currency marker). -/
def fixZeroAddr : String := "0x0000000000000000000000000000000000000000"

/-- A pool key that passes every validator check. -/
def fixPoolKey : RawPoolKey :=
  { currency0 := some fixZeroAddr, currency1 := some fixAddr, fee := some 3000,
    tickSpacing := some 60, hooks := some fixAddr }

/-- Swap parameters that pass every validator check. -/
def fixSwap : RawSwapParams :=
  { poolKey := some fixPoolKey, zeroForOne := some true,
    amountSpecified := some "1000000", sqrtPriceLimitX96 := some "4295128740" }

/-- A proof object of the exact 2 / 2×2 / 2 shape. -/
def fixProof : RawProof :=
  { a := some ["1", "2"], b := some [["3", "4"], ["5", "6"]], c := some ["7", "8"] }

/-- An 8-entry signal array (root 33, nullifier 44, recipient 55, relayer 66,
fee 10 bps, output 77). -/
def fixSignals8 : List String := ["11", "22", "33", "44", "55", "66", "10", "77"]

/-- A fully valid request body. -/
def fixBody : RawBody :=
  { proof := some fixProof, publicSignals := some (fixSignals8.map some),
    swapParams := some fixSwap }

/-- A benign chain environment: verifier unavailable, root known, nullifier
fresh, estimation and submission succeed, recipient already funded. -/
def fixEnv : Env :=
  { localVerify := none, isKnownRoot := fun _ => true, isOwner := false,
    addRoot := .success, isNullifierUsed := fun _ => false,
    estimateGas := some 250000, callRevertMsg := none,
    estimateErrMsg := "execution reverted", sendError := none, txHash := "0xabc",
    receipt := { blockNumber := 100, gasUsed := 210000 }, gasPrice := 2,
    stealthEnabled := true, fundingWei := 500, balanceOf := fun _ => some 1000,
    fundOutcome := .ok "0xfund" }

/-! ## Success-path evaluation lemmas -/

/-- Evaluation of `submitStage2` on the success path. -/
theorem submitStage2_success (env : Env) (p : RawProof) (l : List String)
    (sp : RawSwapParams) (rcp rel f a q : Int) (hd : HookData) (g : Nat)
    (h4 : sigAt l 4 = .ok rcp) (h5 : sigAt l 5 = .ok rel)
    (h6 : sigAt l 6 = .ok f) (hrcp : rcp ≠ 0) (hfee : f ≤ 1000)
    (he : encodeHookData p l = .ok hd)
    (ha : jsBig sp.amountSpecified = .ok a)
    (hq : jsBig sp.sqrtPriceLimitX96 = .ok q)
    (hg : env.estimateGas = some g) (hsend : env.sendError = none) :
    submitStage2 env p l sp =
      (.ok { txHash := env.txHash, blockNumber := env.receipt.blockNumber,
             gasUsed := env.receipt.gasUsed,
             relayerFee := Int.repr (relayerFeeCalc a f),
             fundingTxHash := (fundStealthAddress env (toAddressHex rcp)).1,
             recipientAddress := toAddressHex rcp },
       [.estimateCall, .txSwap (g * 120 / 100) (ethValueCalc sp a)] ++
         (fundStealthAddress env (toAddressHex rcp)).2) := by
  simp only [submitStage2, h4, h5, h6, he, ha, hq, hg, hsend, if_neg hrcp,
    if_neg (by omega : ¬(1000 : Int) < f)]

/-- Evaluation of `submitPrivateSwap` on the success path with a known root. -/
theorem submit_success_rootKnown (env : Env) (p : RawProof) (l : List String)
    (sp : RawSwapParams) (root nh rcp rel f a q : Int) (hd : HookData) (g : Nat)
    (hv : verifyProofLocally env = true)
    (h2 : sigAt l 2 = .ok root) (h3 : sigAt l 3 = .ok nh)
    (hroot : env.isKnownRoot root = true)
    (hnull : env.isNullifierUsed nh = false)
    (h4 : sigAt l 4 = .ok rcp) (h5 : sigAt l 5 = .ok rel)
    (h6 : sigAt l 6 = .ok f) (hrcp : rcp ≠ 0) (hfee : f ≤ 1000)
    (he : encodeHookData p l = .ok hd)
    (ha : jsBig sp.amountSpecified = .ok a)
    (hq : jsBig sp.sqrtPriceLimitX96 = .ok q)
    (hg : env.estimateGas = some g) (hsend : env.sendError = none) :
    submitPrivateSwap env p l sp =
      (.ok { txHash := env.txHash, blockNumber := env.receipt.blockNumber,
             gasUsed := env.receipt.gasUsed,
             relayerFee := Int.repr (relayerFeeCalc a f),
             fundingTxHash := (fundStealthAddress env (toAddressHex rcp)).1,
             recipientAddress := toAddressHex rcp },
       [.readRoot root, .readNullifier nh, .estimateCall,
        .txSwap (g * 120 / 100) (ethValueCalc sp a)] ++
         (fundStealthAddress env (toAddressHex rcp)).2) := by
  simp only [submitPrivateSwap, submitAfterRoot, hv, h2, h3, hroot, hnull,
    Bool.false_eq_true, if_false, if_true,
    submitStage2_success env p l sp rcp rel f a q hd g h4 h5 h6 hrcp hfee he ha hq hg hsend]
  simp

/-- Evaluation of `submitPrivateSwap` on the success path where the root is
unknown but the relayer owns the pool and registers it. -/
theorem submit_success_ownerAdds (env : Env) (p : RawProof) (l : List String)
    (sp : RawSwapParams) (root nh rcp rel f a q : Int) (hd : HookData) (g : Nat)
    (hv : verifyProofLocally env = true)
    (h2 : sigAt l 2 = .ok root) (h3 : sigAt l 3 = .ok nh)
    (hroot : env.isKnownRoot root = false)
    (howner : env.isOwner = true) (hadd : env.addRoot = .success)
    (hnull : env.isNullifierUsed nh = false)
    (h4 : sigAt l 4 = .ok rcp) (h5 : sigAt l 5 = .ok rel)
    (h6 : sigAt l 6 = .ok f) (hrcp : rcp ≠ 0) (hfee : f ≤ 1000)
    (he : encodeHookData p l = .ok hd)
    (ha : jsBig sp.amountSpecified = .ok a)
    (hq : jsBig sp.sqrtPriceLimitX96 = .ok q)
    (hg : env.estimateGas = some g) (hsend : env.sendError = none) :
    submitPrivateSwap env p l sp =
      (.ok { txHash := env.txHash, blockNumber := env.receipt.blockNumber,
             gasUsed := env.receipt.gasUsed,
             relayerFee := Int.repr (relayerFeeCalc a f),
             fundingTxHash := (fundStealthAddress env (toAddressHex rcp)).1,
             recipientAddress := toAddressHex rcp },
       [.readRoot root, .readOwner, .txAddRoot root, .readNullifier nh, .estimateCall,
        .txSwap (g * 120 / 100) (ethValueCalc sp a)] ++
         (fundStealthAddress env (toAddressHex rcp)).2) := by
  simp only [submitPrivateSwap, submitAfterRoot, addKnownRoot, hv, h2, h3, hroot,
    howner, hadd, hnull, Bool.false_eq_true, if_false, if_true,
    submitStage2_success env p l sp rcp rel f a q hd g h4 h5 h6 hrcp hfee he ha hq hg hsend]
  simp

/-- Evaluation of `estimateRelay` on the success path. -/
theorem estimateRelay_success (env : Env) (p : RawProof) (l : List String)
    (sp : RawSwapParams) (f a q : Int) (hd : HookData) (g : Nat)
    (he : encodeHookData p l = .ok hd)
    (ha : jsBig sp.amountSpecified = .ok a)
    (hq : jsBig sp.sqrtPriceLimitX96 = .ok q)
    (hg : env.estimateGas = some g)
    (h6 : sigAt l 6 = .ok f) :
    estimateRelay env p l sp =
      (.ok { gas := g, fee := g * env.gasPrice,
             relayerFee := Int.repr (relayerFeeCalc a f),
             totalCost := Int.repr ((g * env.gasPrice : Nat) + relayerFeeCalc a f) },
       [.estimateCall, .readGasPrice]) := by
  simp only [estimateRelay, he, ha, hq, hg, h6]

/-! ## Claim C1 — the advertised relayer fee -/

/-- Swap parameters with the exact-input amount `-1`. -/
def fixSwapNeg : RawSwapParams := { fixSwap with amountSpecified := some "-1" }

/-- Signals with a fee-bps signal of 1. -/
def fixSignalsFee1 : List String := ["11", "22", "33", "44", "55", "66", "1", "77"]

/-- C1 counterexample: at `amountSpecified = -1`, `feeBps = 1` the service
advertises `relayerFee = "0"` (JS `BigInt` division truncates toward zero),
while the claimed `floor(-1 * 1 / 10000)` is `-1`. -/
theorem C1_fee_counterexample :
    (estimateRelay fixEnv fixProof fixSignalsFee1 fixSwapNeg).1 =
      .ok { gas := 250000, fee := 500000, relayerFee := "0", totalCost := "500000" }
    ∧ (submitPrivateSwap fixEnv fixProof fixSignalsFee1 fixSwapNeg).1 =
      .ok { txHash := "0xabc", blockNumber := 100, gasUsed := 210000,
            relayerFee := "0", fundingTxHash := none,
            recipientAddress := toAddressHex 55 }
    ∧ Int.repr (specRelayerFeeFloor (-1) 1) = "-1" :=
  ⟨rfl, rfl, rfl⟩

/-- C1 (amended): for every request on which `submitPrivateSwap` /
`estimateRelay` succeed, the advertised `relayerFee` is
`(amountSpecified * feeBps) / 10000` rounded toward zero (JS `BigInt`
division); this coincides with the claimed floor division whenever
`amountSpecified` and `feeBps` are nonnegative, but not for negative
`amountSpecified` in general. -/
theorem C1_fee_amended (env : Env) (p : RawProof) (l : List String)
    (sp : RawSwapParams) (root nh rcp rel f a q : Int) (hd : HookData) (g : Nat)
    (hv : verifyProofLocally env = true)
    (h2 : sigAt l 2 = .ok root) (h3 : sigAt l 3 = .ok nh)
    (hroot : env.isKnownRoot root = true)
    (hnull : env.isNullifierUsed nh = false)
    (h4 : sigAt l 4 = .ok rcp) (h5 : sigAt l 5 = .ok rel)
    (h6 : sigAt l 6 = .ok f) (hrcp : rcp ≠ 0) (hfee : f ≤ 1000)
    (he : encodeHookData p l = .ok hd)
    (ha : jsBig sp.amountSpecified = .ok a)
    (hq : jsBig sp.sqrtPriceLimitX96 = .ok q)
    (hg : env.estimateGas = some g) (hsend : env.sendError = none) :
    ((submitPrivateSwap env p l sp).1.map (fun r => r.relayerFee) =
        .ok (Int.repr (Int.tdiv (a * f) 10000)))
    ∧ ((estimateRelay env p l sp).1.map (fun r => r.relayerFee) =
        .ok (Int.repr (Int.tdiv (a * f) 10000)))
    ∧ (0 ≤ a → 0 ≤ f →
        Int.repr (Int.tdiv (a * f) 10000) = Int.repr (specRelayerFeeFloor a f)) := by
  refine ⟨?_, ?_, ?_⟩
  · rw [submit_success_rootKnown env p l sp root nh rcp rel f a q hd g hv h2 h3
      hroot hnull h4 h5 h6 hrcp hfee he ha hq hg hsend]
    rfl
  · rw [estimateRelay_success env p l sp f a q hd g he ha hq hg h6]
    rfl
  · intro hA hF
    rw [specRelayerFeeFloor, Int.fdiv_eq_tdiv (mul_nonneg hA hF) (by omega)]

/-- C1 witness: the amended statement at a concrete successful request. -/
theorem C1_fee_amended_witness :
    ((submitPrivateSwap fixEnv fixProof fixSignals8 fixSwap).1.map
        (fun r => r.relayerFee) = .ok (Int.repr (Int.tdiv (1000000 * 10) 10000)))
    ∧ ((estimateRelay fixEnv fixProof fixSignals8 fixSwap).1.map
        (fun r => r.relayerFee) = .ok (Int.repr (Int.tdiv (1000000 * 10) 10000)))
    ∧ (0 ≤ (1000000 : Int) → 0 ≤ (10 : Int) →
        Int.repr (Int.tdiv ((1000000 : Int) * 10) 10000) =
          Int.repr (specRelayerFeeFloor 1000000 10)) :=
  C1_fee_amended fixEnv fixProof fixSignals8 fixSwap 33 44 55 66 10 1000000 4295128740
    ⟨(1, 2), ((4, 3), (6, 5)), (7, 8), [11, 22, 33, 44, 55, 66, 10, 77]⟩ 250000
    rfl rfl rfl rfl rfl rfl rfl rfl (by decide) (by decide) rfl rfl rfl rfl rfl

/-! ## Claim C8 — the status route -/

/-- A well-formed 64-hex-character transaction hash. -/
def fixHash64 : String := "0x" ++ ⟨List.replicate 64 'a'⟩

/-- C8 counterexample: for a well-formed hash the chain knows nothing about,
`getTransactionReceipt` throws its not-found error, so the route answers 500
from its `catch` — not the claimed 404 — and never calls `getTransaction`. -/
theorem C8_status_counterexample :
    statusEndpoint { receipt := .absent, pendingTx := .absent } fixHash64 =
      ({ status := 500, code := none, errMsg := some "Failed to check status" },
       [.getReceipt])
    ∧ (statusEndpoint { receipt := .absent, pendingTx := .absent } fixHash64).1.status
        ≠ 404 :=
  ⟨rfl, by decide⟩

/-- C8 (amended): a malformed tx-hash path parameter yields a 400 with no
chain-client call; a well-formed hash whose receipt the chain client reports
absent makes the lookup throw, so the route returns 500 from its `catch`
after the single receipt call — the 404 (and pending) branches are dead. -/
theorem C8_status_amended (env : StatusEnv) (h : String) :
    (isValidTxHash h = false →
      statusEndpoint env h =
        ({ status := 400, code := none, errMsg := some "Invalid transaction hash" }, []))
    ∧ (isValidTxHash h = true → env.receipt = .absent →
      statusEndpoint env h =
        ({ status := 500, code := none, errMsg := some "Failed to check status" },
         [.getReceipt])) := by
  constructor
  · intro hbad
    simp [statusEndpoint, hbad]
  · intro hok hr
    simp [statusEndpoint, hok, hr]

/-- C8 witness: both branches at concrete inputs. -/
theorem C8_status_amended_witness :
    statusEndpoint { receipt := .absent, pendingTx := .absent } "0xzz" =
      ({ status := 400, code := none, errMsg := some "Invalid transaction hash" }, [])
    ∧ statusEndpoint { receipt := .absent, pendingTx := .absent } fixHash64 =
      ({ status := 500, code := none, errMsg := some "Failed to check status" },
       [.getReceipt]) :=
  ⟨(C8_status_amended { receipt := .absent, pendingTx := .absent } "0xzz").1 rfl,
   (C8_status_amended { receipt := .absent, pendingTx := .absent } fixHash64).2 rfl rfl⟩

/-! ## Claim C2 — validator rejection of malformed proof shapes -/

/-- A proof whose `b` rows each have 1 entry instead of 2 (shape 2×1, not 2×2). -/
def fixProofBadB : RawProof :=
  { a := some ["1", "2"], b := some [["3"], ["4"]], c := some ["7", "8"] }

/-- An otherwise fully valid body carrying the 2×1-shaped `proof.b`. -/
def fixBodyBadB : RawBody := { fixBody with proof := some fixProofBadB }

/-- C2 counterexample: the validator only checks the outer length of
`proof.b`, so a request whose `b` is `[["3"], ["4"]]` (not the required 2×2
shape) passes validation, reaches the chain client (two pre-flight reads),
and fails far downstream with a 500 — not with the claimed 400. -/
theorem C2_shape_counterexample :
    (fixProofBadB.b.getD []).map List.length = [1, 1]
    ∧ validateRelayRequest fixBodyBadB = none
    ∧ (relayEndpoint fixEnv fixBodyBadB).1 =
        { status := 500, code := some "RELAY_FAILED", errMsg := none }
    ∧ (relayEndpoint fixEnv fixBodyBadB).2 = [.readRoot 33, .readNullifier 44] :=
  ⟨rfl, rfl, rfl, rfl⟩

/-- C2 (amended): the validator rejects with a 400 field-level message and no
downstream chain-client call exactly when the *outer* lengths of `proof.a`,
`proof.b`, `proof.c` differ from 2 (or the field is not an array); the inner
row lengths of `proof.b` are not checked. -/
theorem C2_shape_amended (env : Env) (body : RawBody) (p : RawProof)
    (hp : body.proof = some p)
    (hshape : isArrLen2 p.a = false ∨ isArrLen2 p.b = false ∨ isArrLen2 p.c = false) :
    (relayEndpoint env body).1.status = 400
    ∧ (relayEndpoint env body).1.errMsg.isSome = true
    ∧ (relayEndpoint env body).2 = [] := by
  have hrej : ∃ m, validateRelayRequest body = some m := by
    rcases hshape with h | h | h
    · exact ⟨"Invalid proof.a", by simp [validateRelayRequest, hp, h]⟩
    · by_cases ha : isArrLen2 p.a = true
      · exact ⟨"Invalid proof.b", by simp [validateRelayRequest, hp, ha, h]⟩
      · exact ⟨"Invalid proof.a", by simp [validateRelayRequest, hp,
          Bool.eq_false_iff.mpr (fun hc => ha hc)]⟩
    · by_cases ha : isArrLen2 p.a = true
      · by_cases hb : isArrLen2 p.b = true
        · exact ⟨"Invalid proof.c", by simp [validateRelayRequest, hp, ha, hb, h]⟩
        · exact ⟨"Invalid proof.b", by simp [validateRelayRequest, hp, ha,
            Bool.eq_false_iff.mpr (fun hc => hb hc)]⟩
      · exact ⟨"Invalid proof.a", by simp [validateRelayRequest, hp,
          Bool.eq_false_iff.mpr (fun hc => ha hc)]⟩
  obtain ⟨m, hm⟩ := hrej
  simp [relayEndpoint, hm]

/-- C2 witness: a `proof.b` with three rows is rejected with a 400 and no
chain interaction. -/
theorem C2_shape_amended_witness :
    (relayEndpoint fixEnv
        { fixBody with proof := some { fixProof with b := some [["3"], ["4"], ["5"]] } }).1.status = 400
    ∧ (relayEndpoint fixEnv
        { fixBody with proof := some { fixProof with b := some [["3"], ["4"], ["5"]] } }).1.errMsg.isSome = true
    ∧ (relayEndpoint fixEnv
        { fixBody with proof := some { fixProof with b := some [["3"], ["4"], ["5"]] } }).2 = [] :=
  C2_shape_amended fixEnv _ _ rfl (Or.inr (Or.inl rfl))

/-! ## Claim C3 — spent nullifier fails fast -/

/-- An environment whose chain client reports every nullifier as spent. -/
def fixEnvNullUsed : Env := { fixEnv with isNullifierUsed := fun _ => true }

/-- A spent-nullifier environment where the root is also unknown and the
relayer owns the pool, so the root bootstrap runs first. -/
def fixEnvOwnerNullUsed : Env :=
  { fixEnv with
    isKnownRoot := fun _ => false
    isOwner := true
    isNullifierUsed := fun _ => true }

/-- C3 counterexample: when the spent-nullifier request also carries an
unknown root and the relayer is the owner, the root-registration write is
sent and confirmed *before* the nullifier check fails, so the request does
not issue zero write transactions. -/
theorem C3_nullifier_counterexample :
    (submitPrivateSwap fixEnvOwnerNullUsed fixProof fixSignals8 fixSwap).1 =
      .error .nullifierUsedPreflight
    ∧ ((submitPrivateSwap fixEnvOwnerNullUsed fixProof fixSignals8 fixSwap).2.filter
        Action.isWrite) = [.txAddRoot 33] :=
  ⟨rfl, rfl⟩

/-- C3 (amended): when the chain reports the nullifier-hash signal as already
spent, `submitPrivateSwap` fails with the `NullifierAlreadyUsed` error
(mapped by the relay route to code `NULLIFIER_USED`) and never sends a swap
or funding transaction.  The trace contains no write at all when the root was
already registered; on the unknown-root path with the relayer as owner, the
single root-registration write has already been sent before the failure. -/
theorem C3_nullifier_amended (env : Env) (p : RawProof) (l : List String)
    (sp : RawSwapParams) (root nh : Int)
    (hv : verifyProofLocally env = true)
    (h2 : sigAt l 2 = .ok root) (h3 : sigAt l 3 = .ok nh)
    (hnull : env.isNullifierUsed nh = true) :
    (env.isKnownRoot root = true →
      submitPrivateSwap env p l sp =
        (.error .nullifierUsedPreflight, [.readRoot root, .readNullifier nh])
      ∧ ((submitPrivateSwap env p l sp).2.filter Action.isWrite) = [])
    ∧ (env.isKnownRoot root = false → env.isOwner = true → env.addRoot = .success →
      submitPrivateSwap env p l sp =
        (.error .nullifierUsedPreflight,
         [.readRoot root, .readOwner, .txAddRoot root, .readNullifier nh])
      ∧ ((submitPrivateSwap env p l sp).2.filter Action.isWrite) = [.txAddRoot root]
      ∧ ((submitPrivateSwap env p l sp).2.filter Action.isPostCheckTx) = [])
    ∧ mapRelayError RelayError.nullifierUsedPreflight.message = (400, "NULLIFIER_USED") := by
  refine ⟨?_, ?_, by decide⟩
  · intro hroot
    have hsub : submitPrivateSwap env p l sp =
        (.error .nullifierUsedPreflight, [.readRoot root, .readNullifier nh]) := by
      simp [submitPrivateSwap, submitAfterRoot, hv, h2, h3, hroot, hnull]
    rw [hsub]
    exact ⟨rfl, rfl⟩
  · intro hroot hown hadd
    have hsub : submitPrivateSwap env p l sp =
        (.error .nullifierUsedPreflight,
         [.readRoot root, .readOwner, .txAddRoot root, .readNullifier nh]) := by
      simp [submitPrivateSwap, submitAfterRoot, addKnownRoot, hv, h2, h3, hroot,
        hown, hadd, hnull]
    rw [hsub]
    exact ⟨rfl, rfl, rfl⟩

/-- C3 witness: both root branches at concrete spent-nullifier requests. -/
theorem C3_nullifier_amended_witness :
    (submitPrivateSwap fixEnvNullUsed fixProof fixSignals8 fixSwap =
        (.error .nullifierUsedPreflight, [.readRoot 33, .readNullifier 44])
      ∧ ((submitPrivateSwap fixEnvNullUsed fixProof fixSignals8 fixSwap).2.filter
          Action.isWrite) = [])
    ∧ (submitPrivateSwap fixEnvOwnerNullUsed fixProof fixSignals8 fixSwap =
        (.error .nullifierUsedPreflight,
         [.readRoot 33, .readOwner, .txAddRoot 33, .readNullifier 44])
      ∧ ((submitPrivateSwap fixEnvOwnerNullUsed fixProof fixSignals8 fixSwap).2.filter
          Action.isWrite) = [.txAddRoot 33]
      ∧ ((submitPrivateSwap fixEnvOwnerNullUsed fixProof fixSignals8 fixSwap).2.filter
          Action.isPostCheckTx) = []) :=
  ⟨(C3_nullifier_amended fixEnvNullUsed fixProof fixSignals8 fixSwap 33 44
      rfl rfl rfl rfl).1 rfl,
   (C3_nullifier_amended fixEnvOwnerNullUsed fixProof fixSignals8 fixSwap 33 44
      rfl rfl rfl rfl).2.1 rfl rfl rfl⟩

/-! ## Substring-scan lemmas

The relay route classifies errors by `message.includes(keyword)`.  For
messages that interpolate a number (the unknown-root message), we prove the
keyword checks independently of the interpolated digits. -/

/-- A definite mismatch between `pat` and `l` within their common prefix;
such a mismatch persists under any extension of `l`. -/
def clashAt : List Char → List Char → Bool
  | [], _ => false
  | _ :: _, [] => false
  | a :: as, b :: bs => a != b || clashAt as bs

/-- Every nonempty suffix of `l` clashes with `pat`. -/
def allClash (pat : List Char) : List Char → Bool
  | [] => true
  | c :: cs => clashAt pat (c :: cs) && allClash pat cs

theorem matchesAt_false_of_clashAt (pat : List Char) :
    ∀ l m : List Char, clashAt pat l = true → matchesAt pat (l ++ m) = false := by
  induction pat with
  | nil => intro l m h; cases l <;> simp [clashAt] at h
  | cons a as ih =>
    intro l m h
    cases l with
    | nil => simp [clashAt] at h
    | cons b bs =>
      simp only [clashAt, Bool.or_eq_true, bne_iff_ne] at h
      simp only [List.cons_append, matchesAt, Bool.and_eq_false_iff]
      rcases h with h | h
      · exact Or.inl (beq_eq_false_iff_ne.mpr h)
      · exact Or.inr (ih bs m h)

theorem containsPat_append_false (pat : List Char) :
    ∀ l m : List Char, allClash pat l = true → containsPat pat m = false →
      containsPat pat (l ++ m) = false := by
  intro l
  induction l with
  | nil => intro m _ h2; simpa using h2
  | cons c cs ih =>
    intro m h1 h2
    simp only [allClash, Bool.and_eq_true] at h1
    simp only [List.cons_append, containsPat, Bool.or_eq_false_iff]
    refine ⟨?_, ih m h1.2 h2⟩
    have := matchesAt_false_of_clashAt pat (c :: cs) m h1.1
    simpa using this

theorem matchesAt_append (pat : List Char) :
    ∀ l m : List Char, matchesAt pat l = true → matchesAt pat (l ++ m) = true := by
  induction pat with
  | nil => intro l m _; simp [matchesAt]
  | cons a as ih =>
    intro l m h
    cases l with
    | nil => simp [matchesAt] at h
    | cons b bs =>
      simp only [matchesAt, Bool.and_eq_true] at h
      simp only [List.cons_append, matchesAt, Bool.and_eq_true]
      exact ⟨h.1, ih bs m h.2⟩

theorem containsPat_of_matchesAt (pat l : List Char) (h : matchesAt pat l = true) :
    containsPat pat l = true := by
  cases l with
  | nil => simpa [containsPat] using h
  | cons c cs => simp [containsPat, h]

theorem allClash_of_head_ne (pat : List Char) (a : Char) (hh : pat.head? = some a) :
    ∀ d : List Char, (∀ c ∈ d, (a == c) = false) → allClash pat d = true := by
  intro d
  induction d with
  | nil => intro _; rfl
  | cons c cs ih =>
    intro hd
    cases pat with
    | nil => simp at hh
    | cons p ps =>
      simp only [List.head?] at hh
      injection hh with hh
      subst hh
      simp only [allClash, Bool.and_eq_true]
      refine ⟨?_, ih (fun x hx => hd x (List.mem_cons_of_mem c hx))⟩
      simp [clashAt, bne, hd c (List.mem_cons_self c cs)]

/-! ### Decimal representations consist of digit characters -/

theorem digitChar_isDigit : ∀ m < 10, (Nat.digitChar m).isDigit = true := by decide

theorem toDigitsCore_digits (fuel : Nat) :
    ∀ (n : Nat) (acc : List Char), (∀ c ∈ acc, c.isDigit = true) →
      ∀ c ∈ Nat.toDigitsCore 10 fuel n acc, c.isDigit = true := by
  induction fuel with
  | zero =>
    intro n acc hacc c hc
    rw [Nat.toDigitsCore] at hc
    exact hacc c hc
  | succ fuel ih =>
    intro n acc hacc c hc
    rw [Nat.toDigitsCore] at hc
    have hdig : (Nat.digitChar (n % 10)).isDigit = true :=
      digitChar_isDigit (n % 10) (Nat.mod_lt n (by omega))
    by_cases h : n / 10 = 0
    · rw [if_pos h] at hc
      rcases List.mem_cons.mp hc with hc | hc
      · rw [hc]; exact hdig
      · exact hacc c hc
    · rw [if_neg h] at hc
      refine ih (n / 10) (Nat.digitChar (n % 10) :: acc) ?_ c hc
      intro x hx
      rcases List.mem_cons.mp hx with hx | hx
      · rw [hx]; exact hdig
      · exact hacc x hx

theorem natRepr_digits (n : Nat) : ∀ c ∈ (Nat.repr n).data, c.isDigit = true := by
  intro c hc
  have hc' : c ∈ Nat.toDigitsCore 10 (n + 1) n [] := hc
  exact toDigitsCore_digits (n + 1) n [] (by simp) c hc'

theorem intRepr_digits (i : Int) : ∀ c ∈ (Int.repr i).data, c.isDigit = true ∨ c = '-' := by
  intro c hc
  cases i with
  | ofNat m => exact Or.inl (natRepr_digits m c hc)
  | negSucc m =>
    have hc' : c ∈ ("-" ++ Nat.repr (m + 1)).data := hc
    rw [String.data_append] at hc'
    rcases List.mem_append.mp hc' with hc' | hc'
    · right
      simpa using hc'
    · exact Or.inl (natRepr_digits (m + 1) c hc')

theorem head_ne_digit_minus (a : Char) (ha : a.isDigit = false) (hm : a ≠ '-')
    (c : Char) (hc : c.isDigit = true ∨ c = '-') : (a == c) = false := by
  rcases hc with hc | hc
  · refine beq_eq_false_iff_ne.mpr (fun h => ?_)
    rw [h, hc] at ha
    exact absurd ha (by decide)
  · rw [hc]
    exact beq_eq_false_iff_ne.mpr hm

/-- `(strTake s n).data` unfolds to a list `take`. -/
theorem strTake_data (s : String) (n : Nat) : (strTake s n).data = s.data.take n := rfl

/-- The unknown-root error message is classified as `INVALID_ROOT` by the
relay route for every root value: the interpolated decimal digits can never
produce the earlier keywords `InvalidProof` / `NullifierAlreadyUsed`. -/
theorem mapRelayError_invalidRoot (root : Int) :
    mapRelayError (RelayError.invalidMerkleRootPreflight root).message =
      (400, "INVALID_ROOT") := by
  have hdat : (RelayError.invalidMerkleRootPreflight root).message.data =
      "InvalidMerkleRoot: Root ".data ++
        ((Int.repr root).data.take 20 ++
          "... is not registered in GrimPool. Relayer cannot add roots (not owner).".data) := by
    simp [RelayError.message, String.data_append, strTake_data, List.append_assoc]
  have hTake : ∀ c ∈ (Int.repr root).data.take 20, c.isDigit = true ∨ c = '-' :=
    fun c hc => intRepr_digits root c (List.take_subset 20 _ hc)
  have hIP : strIncludes (RelayError.invalidMerkleRootPreflight root).message
      "InvalidProof" = false := by
    rw [strIncludes, hdat]
    refine containsPat_append_false _ _ _ (by decide) ?_
    refine containsPat_append_false _ _ _ ?_ (by decide)
    exact allClash_of_head_ne "InvalidProof".data 'I' rfl _
      (fun c hc => head_ne_digit_minus 'I' rfl (by decide) c (hTake c hc))
  have hNU : strIncludes (RelayError.invalidMerkleRootPreflight root).message
      "NullifierAlreadyUsed" = false := by
    rw [strIncludes, hdat]
    refine containsPat_append_false _ _ _ (by decide) ?_
    refine containsPat_append_false _ _ _ ?_ (by decide)
    exact allClash_of_head_ne "NullifierAlreadyUsed".data 'N' rfl _
      (fun c hc => head_ne_digit_minus 'N' rfl (by decide) c (hTake c hc))
  have hIM : strIncludes (RelayError.invalidMerkleRootPreflight root).message
      "InvalidMerkleRoot" = true := by
    rw [strIncludes, hdat]
    exact containsPat_of_matchesAt _ _ (matchesAt_append _ _ _ (by decide))
  simp [mapRelayError, hIP, hNU, hIM]

/-! ## Claim C4 — unknown Merkle root: owner vs non-owner -/

/-- The stealth-funding step only ever reads the recipient's balance or sends
the funding transfer. -/
theorem fundStealthAddress_mem (env : Env) (addr : String) :
    ∀ x ∈ (fundStealthAddress env addr).2,
      x = Action.readBalance addr ∨ x = Action.txFund addr env.fundingWei := by
  intro x hx
  rw [fundStealthAddress] at hx
  cases hse : env.stealthEnabled <;> rw [hse] at hx
  · simp at hx
  · simp only [Bool.not_true, if_false] at hx
    cases hb : env.balanceOf addr <;> simp only [hb] at hx
    · simp at hx
      exact Or.inl hx
    · rename_i bal
      by_cases hle : env.fundingWei ≤ bal
      · simp [hle] at hx
        exact Or.inl hx
      · cases hf : env.fundOutcome <;> simp [hle, hf] at hx <;>
          first
          | exact Or.inl hx
          | rcases hx with hx | hx
            · exact Or.inl hx
            · exact Or.inr hx

/-- No root registration happens inside the funding step. -/
theorem fund_countP_addRoot (env : Env) (addr : String) :
    ((fundStealthAddress env addr).2).countP Action.isAddRootTx = 0 := by
  rw [List.countP_eq_zero]
  intro x hx
  rcases fundStealthAddress_mem env addr x hx with h | h <;>
    simp [h, Action.isAddRootTx]

/-- No swap submission happens inside the funding step. -/
theorem fund_countP_swap (env : Env) (addr : String) :
    ((fundStealthAddress env addr).2).countP Action.isSwapTx = 0 := by
  rw [List.countP_eq_zero]
  intro x hx
  rcases fundStealthAddress_mem env addr x hx with h | h <;>
    simp [h, Action.isSwapTx]

/-- C4: with an unregistered root — if the relayer is not the pool owner the
request fails with the `InvalidMerkleRoot` error (code `INVALID_ROOT`) and no
registration (or any other) transaction is attempted; if the relayer is the
owner and registration succeeds, exactly one `addKnownRoot` transaction is
sent, and it precedes the single swap transaction. -/
theorem C4_unknown_root (env : Env) (p : RawProof) (l : List String)
    (sp : RawSwapParams) (root nh rcp rel f a q : Int) (hd : HookData) (g : Nat)
    (hv : verifyProofLocally env = true)
    (h2 : sigAt l 2 = .ok root) (h3 : sigAt l 3 = .ok nh)
    (hroot : env.isKnownRoot root = false) :
    (env.isOwner = false →
      submitPrivateSwap env p l sp =
        (.error (.invalidMerkleRootPreflight root), [.readRoot root, .readOwner])
      ∧ ((submitPrivateSwap env p l sp).2.filter Action.isWrite) = []
      ∧ mapRelayError (RelayError.invalidMerkleRootPreflight root).message =
          (400, "INVALID_ROOT"))
    ∧ (env.isOwner = true → env.addRoot = .success →
       env.isNullifierUsed nh = false →
       sigAt l 4 = .ok rcp → sigAt l 5 = .ok rel → sigAt l 6 = .ok f →
       rcp ≠ 0 → f ≤ 1000 → encodeHookData p l = .ok hd →
       jsBig sp.amountSpecified = .ok a → jsBig sp.sqrtPriceLimitX96 = .ok q →
       env.estimateGas = some g → env.sendError = none →
       ((submitPrivateSwap env p l sp).2.countP Action.isAddRootTx = 1
        ∧ ((submitPrivateSwap env p l sp).2.takeWhile
            (fun x => !x.isSwapTx)).countP Action.isAddRootTx = 1
        ∧ (submitPrivateSwap env p l sp).2.countP Action.isSwapTx = 1)) := by
  constructor
  · intro hown
    have hsub : submitPrivateSwap env p l sp =
        (.error (.invalidMerkleRootPreflight root), [.readRoot root, .readOwner]) := by
      simp [submitPrivateSwap, hv, h2, h3, hroot, hown]
    refine ⟨hsub, ?_, mapRelayError_invalidRoot root⟩
    rw [hsub]
    rfl
  · intro hown hadd hnull h4 h5 h6 hrcp hfee he ha hq hg hsend
    rw [submit_success_ownerAdds env p l sp root nh rcp rel f a q hd g hv h2 h3
      hroot hown hadd hnull h4 h5 h6 hrcp hfee he ha hq hg hsend]
    refine ⟨?_, ?_, ?_⟩
    · simp [List.countP_append, List.countP_cons, Action.isAddRootTx,
        fund_countP_addRoot]
    · simp [List.takeWhile, Action.isSwapTx, List.countP_cons, Action.isAddRootTx]
    · simp [List.countP_append, List.countP_cons, Action.isSwapTx,
        fund_countP_swap]

/-- An environment with an unknown root where the relayer is not the owner. -/
def fixEnvNotOwner : Env := { fixEnv with isKnownRoot := fun _ => false }

/-- An environment with an unknown root where the relayer owns the pool. -/
def fixEnvOwner : Env :=
  { fixEnv with isKnownRoot := fun _ => false, isOwner := true }

/-- C4 witness: both branches at concrete requests. -/
theorem C4_unknown_root_witness :
    (submitPrivateSwap fixEnvNotOwner fixProof fixSignals8 fixSwap =
        (.error (.invalidMerkleRootPreflight 33), [.readRoot 33, .readOwner])
      ∧ ((submitPrivateSwap fixEnvNotOwner fixProof fixSignals8 fixSwap).2.filter
          Action.isWrite) = []
      ∧ mapRelayError (RelayError.invalidMerkleRootPreflight 33).message =
          (400, "INVALID_ROOT"))
    ∧ ((submitPrivateSwap fixEnvOwner fixProof fixSignals8 fixSwap).2.countP
          Action.isAddRootTx = 1
        ∧ ((submitPrivateSwap fixEnvOwner fixProof fixSignals8 fixSwap).2.takeWhile
            (fun x => !x.isSwapTx)).countP Action.isAddRootTx = 1
        ∧ (submitPrivateSwap fixEnvOwner fixProof fixSignals8 fixSwap).2.countP
            Action.isSwapTx = 1) :=
  ⟨(C4_unknown_root fixEnvNotOwner fixProof fixSignals8 fixSwap 33 44 55 66 10
      1000000 4295128740
      ⟨(1, 2), ((4, 3), (6, 5)), (7, 8), [11, 22, 33, 44, 55, 66, 10, 77]⟩ 250000
      rfl rfl rfl rfl).1 rfl,
   (C4_unknown_root fixEnvOwner fixProof fixSignals8 fixSwap 33 44 55 66 10
      1000000 4295128740
      ⟨(1, 2), ((4, 3), (6, 5)), (7, 8), [11, 22, 33, 44, 55, 66, 10, 77]⟩ 250000
      rfl rfl rfl rfl).2 rfl rfl rfl rfl rfl rfl (by decide) (by decide) rfl rfl rfl
      rfl rfl⟩

/-! ## Claim C5 — recipient / fee-bps sanity checks -/

/-- Signals with a zero recipient at index 4. -/
def fixSignalsZeroRcp : List String := ["11", "22", "33", "44", "0", "66", "10", "77"]

/-- Signals with a 1001-bps fee at index 6. -/
def fixSignalsBigFee : List String := ["11", "22", "33", "44", "55", "66", "1001", "77"]

/-- C5 counterexample: when the root was unknown and the relayer (as owner)
registered it, the root-registration transaction has already been sent before
the zero-recipient check fails — so the `InvalidRecipient` failure does not
occur before any transaction is sent. -/
theorem C5_field_sanity_counterexample :
    (submitPrivateSwap fixEnvOwner fixProof fixSignalsZeroRcp fixSwap).1 =
      .error .invalidRecipientPreflight
    ∧ ((submitPrivateSwap fixEnvOwner fixProof fixSignalsZeroRcp fixSwap).2.filter
        Action.isEstimateOrTx) = [.txAddRoot 33]
    ∧ ((submitPrivateSwap fixEnvOwner fixProof fixSignalsZeroRcp fixSwap).2.filter
        Action.isWrite) = [.txAddRoot 33] :=
  ⟨rfl, rfl, rfl⟩

/-- C5 (amended): past the root and nullifier pre-flight checks, a zero
recipient signal fails with `InvalidRecipient` and a fee-bps signal above
1000 fails with `InvalidRelayerFee`, in both cases before anything is
encoded, gas-estimated, simulated, and before any swap or funding
transaction; when the root was already registered no transaction at all
precedes the failure, while on the owner root-bootstrap path exactly the one
earlier root-registration write does. -/
theorem C5_field_sanity_amended (env : Env) (p : RawProof) (l : List String)
    (sp : RawSwapParams) (root nh rcp rel f : Int)
    (hv : verifyProofLocally env = true)
    (h2 : sigAt l 2 = .ok root) (h3 : sigAt l 3 = .ok nh)
    (hnull : env.isNullifierUsed nh = false)
    (h4 : sigAt l 4 = .ok rcp) (h5 : sigAt l 5 = .ok rel)
    (h6 : sigAt l 6 = .ok f) :
    (rcp = 0 →
      (env.isKnownRoot root = true →
        submitPrivateSwap env p l sp =
          (.error .invalidRecipientPreflight, [.readRoot root, .readNullifier nh])
        ∧ ((submitPrivateSwap env p l sp).2.filter Action.isEstimateOrTx) = [])
      ∧ (env.isKnownRoot root = false → env.isOwner = true → env.addRoot = .success →
        submitPrivateSwap env p l sp =
          (.error .invalidRecipientPreflight,
           [.readRoot root, .readOwner, .txAddRoot root, .readNullifier nh])
        ∧ ((submitPrivateSwap env p l sp).2.filter Action.isPostCheckTx) = []
        ∧ ((submitPrivateSwap env p l sp).2.filter Action.isWrite) = [.txAddRoot root]))
    ∧ (rcp ≠ 0 → 1000 < f →
      (env.isKnownRoot root = true →
        submitPrivateSwap env p l sp =
          (.error (.invalidRelayerFeePreflight f), [.readRoot root, .readNullifier nh])
        ∧ ((submitPrivateSwap env p l sp).2.filter Action.isEstimateOrTx) = [])
      ∧ (env.isKnownRoot root = false → env.isOwner = true → env.addRoot = .success →
        submitPrivateSwap env p l sp =
          (.error (.invalidRelayerFeePreflight f),
           [.readRoot root, .readOwner, .txAddRoot root, .readNullifier nh])
        ∧ ((submitPrivateSwap env p l sp).2.filter Action.isPostCheckTx) = []
        ∧ ((submitPrivateSwap env p l sp).2.filter Action.isWrite) = [.txAddRoot root])) := by
  constructor
  · intro hz
    constructor
    · intro hroot
      have hsub : submitPrivateSwap env p l sp =
          (.error .invalidRecipientPreflight, [.readRoot root, .readNullifier nh]) := by
        simp [submitPrivateSwap, submitAfterRoot, submitStage2, hv, h2, h3, hroot,
          hnull, h4, h5, h6, hz]
      exact ⟨hsub, by rw [hsub]; rfl⟩
    · intro hroot hown hadd
      have hsub : submitPrivateSwap env p l sp =
          (.error .invalidRecipientPreflight,
           [.readRoot root, .readOwner, .txAddRoot root, .readNullifier nh]) := by
        simp [submitPrivateSwap, submitAfterRoot, submitStage2, addKnownRoot, hv,
          h2, h3, hroot, hown, hadd, hnull, h4, h5, h6, hz]
      exact ⟨hsub, by rw [hsub]; rfl, by rw [hsub]; rfl⟩
  · intro hnz hf
    constructor
    · intro hroot
      have hsub : submitPrivateSwap env p l sp =
          (.error (.invalidRelayerFeePreflight f),
           [.readRoot root, .readNullifier nh]) := by
        simp [submitPrivateSwap, submitAfterRoot, submitStage2, hv, h2, h3, hroot,
          hnull, h4, h5, h6, if_neg hnz, if_pos hf]
      exact ⟨hsub, by rw [hsub]; rfl⟩
    · intro hroot hown hadd
      have hsub : submitPrivateSwap env p l sp =
          (.error (.invalidRelayerFeePreflight f),
           [.readRoot root, .readOwner, .txAddRoot root, .readNullifier nh]) := by
        simp [submitPrivateSwap, submitAfterRoot, submitStage2, addKnownRoot, hv,
          h2, h3, hroot, hown, hadd, hnull, h4, h5, h6, if_neg hnz, if_pos hf]
      exact ⟨hsub, by rw [hsub]; rfl, by rw [hsub]; rfl⟩

/-- C5 witness: the zero-recipient check on the known-root path and the
fee-ceiling check on the owner root-bootstrap path, both concrete. -/
theorem C5_field_sanity_amended_witness :
    (submitPrivateSwap fixEnv fixProof fixSignalsZeroRcp fixSwap =
        (.error .invalidRecipientPreflight, [.readRoot 33, .readNullifier 44])
      ∧ ((submitPrivateSwap fixEnv fixProof fixSignalsZeroRcp fixSwap).2.filter
          Action.isEstimateOrTx) = [])
    ∧ (submitPrivateSwap fixEnvOwner fixProof fixSignalsBigFee fixSwap =
        (.error (.invalidRelayerFeePreflight 1001),
         [.readRoot 33, .readOwner, .txAddRoot 33, .readNullifier 44])
      ∧ ((submitPrivateSwap fixEnvOwner fixProof fixSignalsBigFee fixSwap).2.filter
          Action.isPostCheckTx) = []
      ∧ ((submitPrivateSwap fixEnvOwner fixProof fixSignalsBigFee fixSwap).2.filter
          Action.isWrite) = [.txAddRoot 33]) :=
  ⟨((C5_field_sanity_amended fixEnv fixProof fixSignalsZeroRcp fixSwap 33 44 0 66 10
      rfl rfl rfl rfl rfl rfl rfl).1 rfl).1 rfl,
   ((C5_field_sanity_amended fixEnvOwner fixProof fixSignalsBigFee fixSwap 33 44 55
      66 1001 rfl rfl rfl rfl rfl rfl rfl).2 (by decide) (by decide)).2 rfl rfl rfl⟩

/-! ## Claim C6 — optional local proof verification -/

/-- C6: when the local verifier is unavailable the relay behaves exactly as
if local verification had passed; when it is available and reports the proof
invalid (or the verification call errors, which the `catch` folds to the same
outcome), the submission fails with the `InvalidProof` error before any chain
interaction at all. -/
theorem C6_local_verifier (env : Env) (p : RawProof) (l : List String)
    (sp : RawSwapParams) :
    (submitPrivateSwap { env with localVerify := none } p l sp =
      submitPrivateSwap { env with localVerify := some true } p l sp)
    ∧ (env.localVerify = some false →
      submitPrivateSwap env p l sp = (.error .invalidProofLocal, [])
      ∧ mapRelayError RelayError.invalidProofLocal.message = (400, "INVALID_PROOF")) := by
  constructor
  · rfl
  · intro hfail
    exact ⟨by simp [submitPrivateSwap, verifyProofLocally, hfail], by decide⟩

/-- An environment whose local verifier rejects the proof. -/
def fixEnvVerifierRejects : Env := { fixEnv with localVerify := some false }

/-- C6 witness: the rejecting verifier at a concrete request. -/
theorem C6_local_verifier_witness :
    submitPrivateSwap fixEnvVerifierRejects fixProof fixSignals8 fixSwap =
      (.error .invalidProofLocal, [])
    ∧ mapRelayError RelayError.invalidProofLocal.message = (400, "INVALID_PROOF") :=
  (C6_local_verifier fixEnvVerifierRejects fixProof fixSignals8 fixSwap).2 rfl

/-! ## Claim C7 — the 20% gas buffer -/

/-- The funding step never contains the swap write. -/
theorem fund_filter_swap (env : Env) (addr : String) :
    ((fundStealthAddress env addr).2).filter Action.isSwapTx = [] := by
  rw [List.filter_eq_nil_iff]
  intro x hx
  rcases fundStealthAddress_mem env addr x hx with h | h <;>
    simp [h, Action.isSwapTx]

/-- C7: on every request that reaches submission, the swap transaction is
sent with gas limit `(gasEstimate * 120) / 100` — the exact integer 20%
buffer. -/
theorem C7_gas_buffer (env : Env) (p : RawProof) (l : List String)
    (sp : RawSwapParams) (root nh rcp rel f a q : Int) (hd : HookData) (g : Nat)
    (hv : verifyProofLocally env = true)
    (h2 : sigAt l 2 = .ok root) (h3 : sigAt l 3 = .ok nh)
    (hroot : env.isKnownRoot root = true)
    (hnull : env.isNullifierUsed nh = false)
    (h4 : sigAt l 4 = .ok rcp) (h5 : sigAt l 5 = .ok rel)
    (h6 : sigAt l 6 = .ok f) (hrcp : rcp ≠ 0) (hfee : f ≤ 1000)
    (he : encodeHookData p l = .ok hd)
    (ha : jsBig sp.amountSpecified = .ok a)
    (hq : jsBig sp.sqrtPriceLimitX96 = .ok q)
    (hg : env.estimateGas = some g) (hsend : env.sendError = none) :
    ((submitPrivateSwap env p l sp).2.filter Action.isSwapTx) =
      [Action.txSwap (g * 120 / 100) (ethValueCalc sp a)] := by
  rw [submit_success_rootKnown env p l sp root nh rcp rel f a q hd g hv h2 h3
    hroot hnull h4 h5 h6 hrcp hfee he ha hq hg hsend]
  simp [List.filter_append, Action.isSwapTx, fund_filter_swap]

/-- C7 witness: the concrete successful request submits with gas
`250000 * 120 / 100 = 300000`. -/
theorem C7_gas_buffer_witness :
    ((submitPrivateSwap fixEnv fixProof fixSignals8 fixSwap).2.filter
        Action.isSwapTx) =
      [Action.txSwap (250000 * 120 / 100) (ethValueCalc fixSwap 1000000)] :=
  C7_gas_buffer fixEnv fixProof fixSignals8 fixSwap 33 44 55 66 10 1000000
    4295128740 ⟨(1, 2), ((4, 3), (6, 5)), (7, 8), [11, 22, 33, 44, 55, 66, 10, 77]⟩
    250000 rfl rfl rfl rfl rfl rfl rfl rfl (by decide) (by decide) rfl rfl rfl rfl rfl

/-! ## Claim C9 — stealth funding is best-effort and balance-gated -/

/-- A funding transfer appears in the funding trace only when stealth funding
is enabled and the recipient's balance was read below the configured amount. -/
theorem fundStealthAddress_txFund (env : Env) (addr' addr : String) (amt : Nat)
    (hx : Action.txFund addr amt ∈ (fundStealthAddress env addr').2) :
    env.stealthEnabled = true
    ∧ ∃ bal, env.balanceOf addr' = some bal ∧ bal < env.fundingWei := by
  rw [fundStealthAddress] at hx
  cases hse : env.stealthEnabled <;> rw [hse] at hx
  · simp at hx
  · simp only [Bool.not_true, if_false] at hx
    cases hb : env.balanceOf addr' <;> simp only [hb] at hx
    · simp at hx
    · rename_i bal
      by_cases hle : env.fundingWei ≤ bal
      · simp [hle] at hx
      · exact ⟨rfl, bal, rfl, by omega⟩

/-- C9: once the swap has confirmed, the relay result is a success for every
possible funding outcome (errors there are caught), and a funding transfer is
only ever sent to the recipient when their current balance is below the
configured funding amount. -/
theorem C9_funding_nonfatal (env : Env) (p : RawProof) (l : List String)
    (sp : RawSwapParams) (root nh rcp rel f a q : Int) (hd : HookData) (g : Nat)
    (hv : verifyProofLocally env = true)
    (h2 : sigAt l 2 = .ok root) (h3 : sigAt l 3 = .ok nh)
    (hroot : env.isKnownRoot root = true)
    (hnull : env.isNullifierUsed nh = false)
    (h4 : sigAt l 4 = .ok rcp) (h5 : sigAt l 5 = .ok rel)
    (h6 : sigAt l 6 = .ok f) (hrcp : rcp ≠ 0) (hfee : f ≤ 1000)
    (he : encodeHookData p l = .ok hd)
    (ha : jsBig sp.amountSpecified = .ok a)
    (hq : jsBig sp.sqrtPriceLimitX96 = .ok q)
    (hg : env.estimateGas = some g) (hsend : env.sendError = none) :
    (∃ r, (submitPrivateSwap env p l sp).1 = .ok r)
    ∧ (∀ addr amt, Action.txFund addr amt ∈ (submitPrivateSwap env p l sp).2 →
        env.stealthEnabled = true
        ∧ addr = toAddressHex rcp
        ∧ ∃ bal, env.balanceOf addr = some bal ∧ bal < env.fundingWei) := by
  rw [submit_success_rootKnown env p l sp root nh rcp rel f a q hd g hv h2 h3
    hroot hnull h4 h5 h6 hrcp hfee he ha hq hg hsend]
  constructor
  · exact ⟨_, rfl⟩
  · intro addr amt hmem
    rcases List.mem_append.mp hmem with hpre | hfund
    · simp at hpre
    · have haddr : addr = toAddressHex rcp ∧ amt = env.fundingWei := by
        rcases fundStealthAddress_mem env (toAddressHex rcp) _ hfund with h' | h'
        · exact absurd h' (by simp)
        · simpa using h'
      obtain ⟨hse, bal, hbal, hlt⟩ :=
        fundStealthAddress_txFund env (toAddressHex rcp) addr amt hfund
      exact ⟨hse, haddr.1, bal, by rw [haddr.1]; exact hbal, hlt⟩

/-- An environment where the recipient is unfunded, so the top-up fires. -/
def fixEnvPoorRecipient : Env := { fixEnv with balanceOf := fun _ => some 0 }

/-- C9 witness: the concrete request with an unfunded recipient still
succeeds, and its funding transfer satisfies the balance gate. -/
theorem C9_funding_nonfatal_witness :
    (∃ r, (submitPrivateSwap fixEnvPoorRecipient fixProof fixSignals8 fixSwap).1 =
      .ok r)
    ∧ (∀ addr amt,
        Action.txFund addr amt ∈
          (submitPrivateSwap fixEnvPoorRecipient fixProof fixSignals8 fixSwap).2 →
        fixEnvPoorRecipient.stealthEnabled = true
        ∧ addr = toAddressHex 55
        ∧ ∃ bal, fixEnvPoorRecipient.balanceOf addr = some bal ∧
            bal < fixEnvPoorRecipient.fundingWei) :=
  C9_funding_nonfatal fixEnvPoorRecipient fixProof fixSignals8 fixSwap 33 44 55 66
    10 1000000 4295128740
    ⟨(1, 2), ((4, 3), (6, 5)), (7, 8), [11, 22, 33, 44, 55, 66, 10, 77]⟩ 250000
    rfl rfl rfl rfl rfl rfl rfl rfl (by decide) (by decide) rfl rfl rfl rfl rfl

/-! ## Claim C10 — 6- or 7-entry signal arrays pass validation, then 500 -/

/-- A successful `mapM` over `Except` preserves the list length. -/
theorem mapM_except_length {α β ε : Type} (f : α → Except ε β) :
    ∀ (l : List α) (vs : List β), l.mapM f = Except.ok vs → vs.length = l.length := by
  intro l
  induction l with
  | nil =>
    intro vs h
    simp only [List.mapM_nil, pure, Except.pure] at h
    injection h with h
    rw [← h]
    rfl
  | cons x xs ih =>
    intro vs h
    rw [List.mapM_cons] at h
    cases hfx : f x with
    | error e =>
      rw [hfx] at h
      simp [Bind.bind, Except.bind] at h
    | ok b =>
      rw [hfx] at h
      cases hms : xs.mapM f with
      | error e =>
        rw [hms] at h
        simp [Bind.bind, Except.bind, pure, Except.pure] at h
      | ok bs =>
        rw [hms] at h
        simp only [Bind.bind, Except.bind, pure, Except.pure] at h
        injection h with h
        rw [← h]
        simp [ih bs hms]

/-- Undoing the route's `Option.getD` re-extraction of an all-string signal
array. -/
theorem map_getD_some {α : Type} (l : List α) (d : α) :
    List.map ((fun o => Option.getD o d) ∘ some) l = l := by
  induction l with
  | nil => rfl
  | cons x xs ih => simp [ih]

/-- C10: a request whose `publicSignals` has exactly 6 or 7 entries passes the
validator (which only demands length ≥ 6), but `submitPrivateSwap` and
`estimateRelay` read signal index 6 and encode a fixed `uint256[8]` array, so
(with the pre-flight checks passing) the request fails after validation with a
generic error — surfaced by the relay route as a 500 with code `RELAY_FAILED`
and by the estimate route as a plain 500 — never as a 400 field-level
validation error. -/
theorem C10_signal_arity (env : Env) (body : RawBody) (p : RawProof)
    (sp : RawSwapParams) (l : List String) (root nh rcp rel : Int)
    (a0 a1 b01 b00 b11 b10 c0 c1 : Int) (vs : List Int)
    (hbp : body.proof = some p) (hbs : body.publicSignals = some (l.map some))
    (hbsp : body.swapParams = some sp)
    (hvalid : validateRelayRequest body = none)
    (hv : verifyProofLocally env = true)
    (h2 : sigAt l 2 = .ok root) (h3 : sigAt l 3 = .ok nh)
    (hroot : env.isKnownRoot root = true)
    (hnull : env.isNullifierUsed nh = false)
    (h4 : sigAt l 4 = .ok rcp) (h5 : sigAt l 5 = .ok rel)
    (hA0 : jsBig (idx1 p.a 0) = .ok a0) (hA1 : jsBig (idx1 p.a 1) = .ok a1)
    (hB01 : jsBig (idx2 p.b 0 1) = .ok b01) (hB00 : jsBig (idx2 p.b 0 0) = .ok b00)
    (hB11 : jsBig (idx2 p.b 1 1) = .ok b11) (hB10 : jsBig (idx2 p.b 1 0) = .ok b10)
    (hC0 : jsBig (idx1 p.c 0) = .ok c0) (hC1 : jsBig (idx1 p.c 1) = .ok c1)
    (hvs : l.mapM (fun s => jsBig (some s)) = .ok vs) :
    (l.length = 6 →
      relayEndpoint env body =
        ({ status := 500, code := some "RELAY_FAILED", errMsg := none },
         [.readRoot root, .readNullifier nh])
      ∧ estimateEndpoint env body =
        ({ status := 500, code := none, errMsg := none }, []))
    ∧ (l.length = 7 → ∀ f : Int, sigAt l 6 = .ok f → rcp ≠ 0 → f ≤ 1000 →
       relayEndpoint env body =
        ({ status := 500, code := some "RELAY_FAILED", errMsg := none },
         [.readRoot root, .readNullifier nh])
       ∧ estimateEndpoint env body =
        ({ status := 500, code := none, errMsg := none }, [])) := by
  constructor
  · intro hlen
    have hvl : vs.length = 6 := by
      rw [mapM_except_length (fun s => jsBig (some s)) l vs hvs, hlen]
    have henc : encodeHookData p l = .error (.abiLengthMismatch 8 6) := by
      simp only [encodeHookData, hA0, hA1, hB01, hB00, hB11, hB10, hC0, hC1, hvs, hvl]
      simp
    have h6e : sigAt l 6 = .error .typeErrorUndefined := by
      rw [sigAt]
      have hnone : l.get? 6 = none := by
        rw [List.get?_eq_none]
        omega
      rw [hnone]
      rfl
    have hsub : submitPrivateSwap env p l sp =
        (.error .typeErrorUndefined, [.readRoot root, .readNullifier nh]) := by
      simp [submitPrivateSwap, submitAfterRoot, submitStage2, hv, h2, h3, hroot,
        hnull, h4, h5, h6e]
    have hest : estimateRelay env p l sp = (.error (.abiLengthMismatch 8 6), []) := by
      simp [estimateRelay, henc]
    have hmap : mapRelayError RelayError.typeErrorUndefined.message =
        (500, "RELAY_FAILED") := by decide
    constructor
    · simp [relayEndpoint, hvalid, hbp, hbs, hbsp, map_getD_some, hsub, hmap]
    · simp [estimateEndpoint, hvalid, hbp, hbs, hbsp, map_getD_some, hest]
  · intro hlen f h6 hrcp hfee
    have hvl : vs.length = 7 := by
      rw [mapM_except_length (fun s => jsBig (some s)) l vs hvs, hlen]
    have henc : encodeHookData p l = .error (.abiLengthMismatch 8 7) := by
      simp only [encodeHookData, hA0, hA1, hB01, hB00, hB11, hB10, hC0, hC1, hvs, hvl]
      simp
    have hsub : submitPrivateSwap env p l sp =
        (.error (.abiLengthMismatch 8 7), [.readRoot root, .readNullifier nh]) := by
      simp [submitPrivateSwap, submitAfterRoot, submitStage2, hv, h2, h3, hroot,
        hnull, h4, h5, h6, if_neg hrcp, if_neg (by omega : ¬(1000 : Int) < f), henc]
    have hest : estimateRelay env p l sp = (.error (.abiLengthMismatch 8 7), []) := by
      simp [estimateRelay, henc]
    have hmap : mapRelayError (RelayError.abiLengthMismatch 8 7).message =
        (500, "RELAY_FAILED") := by decide
    constructor
    · simp [relayEndpoint, hvalid, hbp, hbs, hbsp, map_getD_some, hsub, hmap]
    · simp [estimateEndpoint, hvalid, hbp, hbs, hbsp, map_getD_some, hest]

/-- A valid body whose signal array has exactly 6 entries. -/
def fixBody6 : RawBody :=
  { fixBody with publicSignals := some (["11", "22", "33", "44", "55", "66"].map some) }

/-- A valid body whose signal array has exactly 7 entries. -/
def fixBody7 : RawBody :=
  { fixBody with
    publicSignals := some (["11", "22", "33", "44", "55", "66", "10"].map some) }

/-- C10 witness: both arities at concrete requests against the benign
environment. -/
theorem C10_signal_arity_witness :
    (relayEndpoint fixEnv fixBody6 =
      ({ status := 500, code := some "RELAY_FAILED", errMsg := none },
       [.readRoot 33, .readNullifier 44])
      ∧ estimateEndpoint fixEnv fixBody6 =
        ({ status := 500, code := none, errMsg := none }, []))
    ∧ (relayEndpoint fixEnv fixBody7 =
      ({ status := 500, code := some "RELAY_FAILED", errMsg := none },
       [.readRoot 33, .readNullifier 44])
      ∧ estimateEndpoint fixEnv fixBody7 =
        ({ status := 500, code := none, errMsg := none }, [])) :=
  ⟨(C10_signal_arity fixEnv fixBody6 fixProof fixSwap
      ["11", "22", "33", "44", "55", "66"] 33 44 55 66 1 2 4 3 6 5 7 8
      [11, 22, 33, 44, 55, 66] rfl rfl rfl rfl rfl rfl rfl rfl rfl rfl rfl
      rfl rfl rfl rfl rfl rfl rfl rfl rfl).1 rfl,
   (C10_signal_arity fixEnv fixBody7 fixProof fixSwap
      ["11", "22", "33", "44", "55", "66", "10"] 33 44 55 66 1 2 4 3 6 5 7 8
      [11, 22, 33, 44, 55, 66, 10] rfl rfl rfl rfl rfl rfl rfl rfl rfl rfl rfl
      rfl rfl rfl rfl rfl rfl rfl rfl rfl).2
      rfl 10 rfl (by decide) (by decide)⟩

end GrimRelay
